import Mathlib

/-!
Shallow embedding of the ARM systick device driver (src/arch/arm/timer/systick.c)
and verification of the specification claims about it.

The driver state is modelled as a record holding the three systick hardware
registers (reload value strvr, current value stcvr, control/status stcsr) and
the file-scope globals of the driver.  Machine integers are modelled as Nat
with explicit reduction modulo 2^32 where the C code performs uint32_t
arithmetic; the int32_t quantities (the ticks argument of the idle-enter
routine and the extern counter of elapsed idle ticks) are modelled as Int with
explicit two-complement wrapping.  Pushes of TICK_EVENT onto the microkernel
stack are modelled by a counter of announcements.
-/

namespace Systick

/-- 2^32, the modulus of uint32_t arithmetic. -/
def U32M : Nat := 4294967296

/-- Reduce a natural number modulo 2^32, as storing into a uint32_t does. -/
def u32 (n : Nat) : Nat := n % U32M

/-- uint32_t subtraction (wraps modulo 2^32). -/
def u32sub (a b : Nat) : Nat := (a % U32M + (U32M - b % U32M)) % U32M

/-- Reinterpret a uint32_t value as an int32_t (two-complement). -/
def toI32 (n : Nat) : Int :=
  if n % U32M < 2147483648 then ((n % U32M : Nat) : Int)
  else ((n % U32M : Nat) : Int) - (U32M : Int)

/-- Convert an int32_t value to uint32_t, as the C usual conversions do. -/
def i32toU32 (i : Int) : Nat := (i % (U32M : Int)).toNat

/-- Wrap an integer into the int32_t range. -/
def i32wrap (i : Int) : Int := (i + 2147483648) % (U32M : Int) - 2147483648

/-- timerMode values: TIMER_MODE_PERIODIC / TIMER_MODE_ONE_SHOT. -/
inductive TimerMode where
  | periodic
  | oneShot
deriving DecidableEq

/-- idleMode values: IDLE_NOT_TICKLESS / IDLE_TICKLESS. -/
inductive IdleMode where
  | notTickless
  | tickless
deriving DecidableEq

/-- The systick control/status register, union __stcsr, as the bitfields the
driver reads and writes plus an abstract value for all remaining bits. -/
structure Stcsr where
  enable : Bool
  tickint : Bool
  clksource : Bool
  countflag : Bool
  rest : Nat
deriving DecidableEq

/-- Full driver state: the three systick registers and the file-scope
globals of systick.c, plus the extern int32_t _SysIdleElapsedTicks and a
count of TICK_EVENT announcements pushed to the microkernel stack. -/
structure State where
  strvr : Nat
  stcvr : Nat
  stcsr : Stcsr
  accumulatedCount : Nat
  defaultLoadVal : Nat
  idleOrigCount : Nat
  maxSysTicks : Nat
  idleOrigTicks : Nat
  maxLoadValue : Nat
  timerIdleSkew : Nat
  timerMode : TimerMode
  idleMode : IdleMode
  sysIdleElapsedTicks : Int
  tickEvents : Nat
deriving DecidableEq

/-- sysTickStop: read-modify-write of the control/status register clearing
the enable and tickint bits (lines 149-161).  On this hardware the read of
the register clears the sticky countflag (the code notes this side effect
of the same read at line 187) and the write cannot set the read-only flag
back, so the flag is false afterwards; the remaining bits are preserved. -/
def sysTickStop (s : State) : State :=
  { s with stcsr := { s.stcsr with enable := false, tickint := false, countflag := false } }

/-- sysTickStart: read-modify-write of the control/status register setting
the enable, tickint and clksource bits (lines 178-192); per the comment at
line 187 the countflag is cleared by the read, and the remaining bits are
preserved. -/
def sysTickStart (s : State) : State :=
  let csr := { s.stcsr with enable := true, tickint := true, clksource := true, countflag := false }
  { s with stcsr := csr }

/-- sysTickCurrentGet: read the current value register (lines 206-209). -/
def sysTickCurrentGet (s : State) : Nat := s.stcvr

/-- sysTickReloadGet: read the reload value register (lines 221-224). -/
def sysTickReloadGet (s : State) : Nat := s.strvr

/-- sysTickReloadSet: write the reload register and clear the current value
register; per the code comment the write of stcvr also clears the countflag
(lines 241-253). -/
def sysTickReloadSet (count : Nat) (s : State) : State :=
  { s with strvr := u32 count, stcvr := 0,
           stcsr := { s.stcsr with countflag := false } }

/-- Hardware wrap event: the down counter reached zero, reloads from the
reload register, and the sticky countflag is set.  This is the hardware
behaviour immediately preceding a systick interrupt; it is not driver code. -/
def hwWrap (s : State) : State :=
  { s with stcvr := s.strvr, stcsr := { s.stcsr with countflag := true } }

/-- Hardware countdown: the down counter has decremented to the given value.
Models the passage of time between driver operations; not driver code. -/
def setCount (c : Nat) (s : State) : State := { s with stcvr := c }

/-- _timer_int_handler, CONFIG_TICKLESS_IDLE + CONFIG_ADVANCED_POWER_MANAGEMENT
build, lines 300-343: restore periodic mode when a tickless interval ran to
completion, set and announce the elapsed ticks, accumulate the counter total.
The trailing call into _SysPowerSaveIdleExit (line 354-365) is an external
collaborator declared extern and not part of this file. -/
def timer_int_handler (s : State) : State :=
  let s1 :=
    if s.timerMode = TimerMode.oneShot then
      let sa := sysTickStart (sysTickReloadSet s.defaultLoadVal (sysTickStop s))
      { sa with timerMode := TimerMode.periodic }
    else s
  let s2 :=
    if s1.idleMode = IdleMode.tickless then
      { s1 with idleMode := IdleMode.notTickless,
                sysIdleElapsedTicks := toI32 (u32 (s1.idleOrigTicks + 1)),
                tickEvents := s1.tickEvents + 1 }
    else
      let e := i32wrap (s1.sysIdleElapsedTicks + 1)
      let sb := { s1 with sysIdleElapsedTicks := e }
      if e = 1 then { sb with tickEvents := sb.tickEvents + 1 } else sb
  let acc := u32 (s2.accumulatedCount + u32 (s2.defaultLoadVal * i32toU32 s2.sysIdleElapsedTicks))
  { s2 with accumulatedCount := acc }

/-- _timer_int_handler in the build without CONFIG_ADVANCED_POWER_MANAGEMENT,
with CONFIG_MICROKERNEL, lines 371-379: add one tick of cycles to the
accumulated count and push one TICK_EVENT. -/
def timer_int_handler_plain (cyclesPerTick : Nat) (s : State) : State :=
  { s with accumulatedCount := u32 (s.accumulatedCount + cyclesPerTick),
           tickEvents := s.tickEvents + 1 }

/-- One natural periodic tick in the plain build: the hardware wrap followed
by the interrupt handler. -/
def naturalTicks (cyclesPerTick : Nat) : Nat → State → State
  | 0, s => s
  | k + 1, s => timer_int_handler_plain cyclesPerTick (hwWrap (naturalTicks cyclesPerTick k s))

/-- _timer_idle_enter, lines 495-537.  The ticks argument is int32_t; the
comparison against the uint32_t maxSysTicks converts it to uint32_t, and the
stored idleOrigTicks is the uint32_t value of ticks - 1. -/
def timer_idle_enter (ticks : Int) (s : State) : State :=
  let s0 := sysTickStop s
  let s1 := { s0 with idleOrigCount := u32sub (sysTickCurrentGet s0) s0.timerIdleSkew }
  let s2 :=
    if ticks = -1 ∨ i32toU32 ticks > s1.maxSysTicks then
      { s1 with idleOrigCount :=
                  u32 (s1.idleOrigCount + u32sub s1.maxLoadValue s1.defaultLoadVal),
                idleOrigTicks := u32sub s1.maxSysTicks 1 }
    else
      let t := i32toU32 (ticks - 1)
      { s1 with idleOrigTicks := t,
                idleOrigCount := u32 (s1.idleOrigCount + u32 (t * s1.defaultLoadVal)) }
  let s3 := { s2 with timerMode := TimerMode.oneShot, idleMode := IdleMode.tickless }
  sysTickStart (sysTickReloadSet s3.idleOrigCount s3)

/-- _timer_idle_exit, lines 554-628.  The countflag test at line 574 reads
the control/status register after sysTickStop has already read it, so it
observes the flag as cleared by that earlier read; the expired-interval
branch is therefore reachable only through a current count of zero. -/
def timer_idle_exit (s : State) : State :=
  if s.timerMode = TimerMode.periodic then s
  else
    let s0 := sysTickStop s
    let count := sysTickCurrentGet s0
    let s1 :=
      if count = 0 ∨ s0.stcsr.countflag then
        let sa := sysTickReloadSet s0.defaultLoadVal s0
        { sa with timerMode := TimerMode.periodic,
                  sysIdleElapsedTicks := toI32 (u32sub sa.idleOrigTicks 1),
                  tickEvents := sa.tickEvents + 1 }
      else
        let elapsed := u32sub s0.idleOrigCount count
        let remaining := elapsed % s0.defaultLoadVal
        let sb :=
          if remaining = 0 then
            let sr := sysTickReloadSet s0.defaultLoadVal s0
            { sr with timerMode := TimerMode.periodic }
          else if count > remaining then
            sysTickReloadSet remaining s0
          else s0
        let q := elapsed / s0.defaultLoadVal
        let sc := { sb with sysIdleElapsedTicks := toI32 q }
        if q ≠ 0 then { sc with tickEvents := sc.tickEvents + 1 } else sc
    sysTickStart { s1 with idleMode := IdleMode.notTickless }

/-- timer_driver, lines 641-678, in the build without CONFIG_TICKLESS_IDLE:
the boot-time assertion that sys_clock_hw_cycles_per_tick fits the 24-bit
counter is modelled as Option (none = fatal assertion), then the reload
register is programmed to cyclesPerTick - 1 and the control/status register
is overwritten with enable + tickint + clksource. -/
def timer_driver (cyclesPerTick : Nat) (s : State) : Option State :=
  if cyclesPerTick ≤ 16777216 then
    let s1 := sysTickReloadSet (u32sub cyclesPerTick 1) s
    some { s1 with stcsr := ⟨true, true, true, false, 0⟩ }
  else none

/-- timer_read, lines 695-698: the accumulated count plus the cycles elapsed
since the last reload, all in uint32_t arithmetic. -/
def timer_read (s : State) : Nat :=
  u32 (s.accumulatedCount + u32sub s.strvr s.stcvr)

/-- timer_disable, lines 712-724: under an interrupt lock, stop the counter.
The irq lock and unlock touch no timer state. -/
def timer_disable (s : State) : State := sysTickStop s

/-- A representative driver state used to instantiate theorems with
hypotheses on concrete inputs: periodic mode, default reload 999
(sys_clock_hw_cycles_per_tick = 1000), the derived tickless constants of
that reload value, and a counter in mid countdown. -/
def testState : State where
  strvr := 999
  stcvr := 400
  stcsr := ⟨true, true, true, false, 0⟩
  accumulatedCount := 5000
  defaultLoadVal := 999
  idleOrigCount := 0
  maxSysTicks := 16794
  idleOrigTicks := 0
  maxLoadValue := 16777206
  timerIdleSkew := 3
  timerMode := TimerMode.periodic
  idleMode := IdleMode.notTickless
  sysIdleElapsedTicks := 0
  tickEvents := 0

/-- A state in the tickless build with the counter one cycle from expiry,
used to exhibit a decrease of timer_read across an idle enter/exit cycle. -/
def c3State : State := { testState with stcvr := 1, accumulatedCount := 0, timerIdleSkew := 0 }

/-- A freshly configured periodic state (counter at the reload value, zero
accumulated count) for the plain periodic tick scenario. -/
def c3RunState : State := { testState with stcvr := 999, accumulatedCount := 0 }

/-- A state whose control/status register has the sticky countflag set,
exhibiting the clear-on-read effect of stopping the timer. -/
def c10State : State := { testState with stcsr := ⟨true, true, true, true, 0⟩ }

lemma u32_eq {n : Nat} (h : n < U32M) : u32 n = n := Nat.mod_eq_of_lt h

lemma u32sub_eq {a b : Nat} (h1 : b ≤ a) (h2 : a < U32M) : u32sub a b = a - b := by
  unfold u32sub U32M at *
  omega

lemma toI32_eq {n : Nat} (h : n < 2147483648) : toI32 n = n := by
  unfold toI32 U32M
  rw [Nat.mod_eq_of_lt (by omega)]
  simp [h]

lemma i32toU32_ofNat {n : Nat} (h : n < U32M) : i32toU32 (n : Int) = n := by
  unfold i32toU32 U32M at *
  omega

lemma i32toU32_sub_one {n : Nat} (h1 : 1 ≤ n) (h2 : n < U32M) :
    i32toU32 ((n : Int) - 1) = n - 1 := by
  unfold i32toU32 U32M at *
  omega

lemma i32wrap_eq {i : Int} (h1 : -2147483648 ≤ i) (h2 : i < 2147483648) :
    i32wrap i = i := by
  unfold i32wrap U32M
  omega

/-- Claim C8: in a state where the counter is counting down normally
(current value at most the reload value), timer_read returns the accumulated
total plus the cycles elapsed since the last reload, reduced modulo 2^32;
with no accumulator overflow the value is exact. -/
theorem c8_read_formula (s : State) (h1 : s.stcvr ≤ s.strvr) (h2 : s.strvr < U32M) :
    timer_read s = u32 (s.accumulatedCount + (s.strvr - s.stcvr)) ∧
    (s.accumulatedCount + (s.strvr - s.stcvr) < U32M →
      timer_read s = s.accumulatedCount + (s.strvr - s.stcvr)) := by
  have hs : u32sub s.strvr s.stcvr = s.strvr - s.stcvr := u32sub_eq h1 h2
  constructor
  · unfold timer_read
    rw [hs]
  · intro h3
    unfold timer_read
    rw [hs]
    exact u32_eq h3

/-- Witness for C8 at a concrete state. -/
theorem c8_read_formula_witness :
    timer_read testState = u32 (testState.accumulatedCount + (testState.strvr - testState.stcvr)) ∧
    (testState.accumulatedCount + (testState.strvr - testState.stcvr) < U32M →
      timer_read testState = testState.accumulatedCount + (testState.strvr - testState.stcvr)) :=
  c8_read_formula testState (by decide) (by decide)

/-- Claim C9: when the timer mode is periodic, timer_idle_exit returns the
state entirely unchanged, and hence two consecutive exit calls with no
intervening idle-enter are both no-ops. -/
theorem c9_spurious_exit_noop (s : State) (h : s.timerMode = TimerMode.periodic) :
    timer_idle_exit s = s ∧ timer_idle_exit (timer_idle_exit s) = s := by
  have h1 : timer_idle_exit s = s := by
    unfold timer_idle_exit
    rw [if_pos h]
  exact ⟨h1, by rw [h1, h1]⟩

/-- Witness for C9 at a concrete state. -/
theorem c9_spurious_exit_noop_witness :
    timer_idle_exit testState = testState ∧
    timer_idle_exit (timer_idle_exit testState) = testState :=
  c9_spurious_exit_noop testState rfl

/-- Claim C10 counterexample: stopping the timer while the sticky countflag
is set does not leave that bit unchanged: the read performed by the
read-modify-write of the control/status register clears the flag. -/
theorem c10_counterexample :
    ¬ ((sysTickStop c10State).stcsr.countflag = c10State.stcsr.countflag) := by
  decide

/-- Claim C10 amended: sysTickStop clears the enable and tickint bits of
the control/status register and, through the clear-on-read side effect of
reading that register, also the sticky countflag; the clock source bit,
the remaining register bits and every other piece of timer state are
unchanged; timer_disable performs exactly this stop and is idempotent. -/
theorem c10_stop_frame (s : State) :
    (sysTickStop s).stcsr.enable = false ∧
    (sysTickStop s).stcsr.tickint = false ∧
    (sysTickStop s).stcsr.countflag = false ∧
    (sysTickStop s).stcsr.clksource = s.stcsr.clksource ∧
    (sysTickStop s).stcsr.rest = s.stcsr.rest ∧
    (sysTickStop s).strvr = s.strvr ∧
    (sysTickStop s).stcvr = s.stcvr ∧
    (sysTickStop s).accumulatedCount = s.accumulatedCount ∧
    (sysTickStop s).defaultLoadVal = s.defaultLoadVal ∧
    (sysTickStop s).idleOrigCount = s.idleOrigCount ∧
    (sysTickStop s).maxSysTicks = s.maxSysTicks ∧
    (sysTickStop s).idleOrigTicks = s.idleOrigTicks ∧
    (sysTickStop s).maxLoadValue = s.maxLoadValue ∧
    (sysTickStop s).timerIdleSkew = s.timerIdleSkew ∧
    (sysTickStop s).timerMode = s.timerMode ∧
    (sysTickStop s).idleMode = s.idleMode ∧
    (sysTickStop s).sysIdleElapsedTicks = s.sysIdleElapsedTicks ∧
    (sysTickStop s).tickEvents = s.tickEvents ∧
    timer_disable s = sysTickStop s ∧
    timer_disable (timer_disable s) = timer_disable s := by
  refine ⟨rfl, rfl, rfl, rfl, rfl, rfl, rfl, rfl, rfl, rfl, rfl, rfl, rfl, rfl, rfl, rfl,
          rfl, rfl, rfl, rfl⟩

/-- Claim C7: for every cyclesPerTick between 1 and 2^24 the driver
configuration succeeds and leaves the reload register at cyclesPerTick - 1
with the current count register cleared; for every larger value the
boot-time assertion fails fatally. -/
theorem c7_configure_bounds (cpt : Nat) (s : State) :
    (1 ≤ cpt → cpt ≤ 16777216 →
      ∃ t, timer_driver cpt s = some t ∧ t.strvr = cpt - 1 ∧ t.stcvr = 0) ∧
    (16777216 < cpt → timer_driver cpt s = none) := by
  constructor
  · intro h1 h2
    refine ⟨{ sysTickReloadSet (u32sub cpt 1) s with stcsr := ⟨true, true, true, false, 0⟩ },
            ?_, ?_, rfl⟩
    · unfold timer_driver
      rw [if_pos h2]
    · show u32 (u32sub cpt 1) = cpt - 1
      rw [u32sub_eq h1 (by unfold U32M; omega), u32_eq (by unfold U32M; omega)]
  · intro h
    unfold timer_driver
    rw [if_neg (by omega)]

/-- Witness for C7 at cyclesPerTick = 1000 and 2^24 + 1. -/
theorem c7_configure_bounds_witness :
    (∃ t, timer_driver 1000 testState = some t ∧ t.strvr = 999 ∧ t.stcvr = 0) ∧
    timer_driver 16777217 testState = none :=
  ⟨(c7_configure_bounds 1000 testState).1 (by decide) (by decide),
   (c7_configure_bounds 16777217 testState).2 (by decide)⟩

/-- Claim C5: every idle-enter request that is -1 or whose uint32 value
exceeds maxSysTicks is clamped identically: the resulting state is exactly
the state produced by a request of -1, with the stored tick request set to
maxSysTicks - 1 and maxLoadValue - defaultLoadVal added to the
skew-adjusted origin count; in particular requests of -1 and of
maxSysTicks + 5 produce identical resulting states. -/
theorem c5_clamp_boundary (s : State) (ticks : Int)
    (hclamp : ticks = -1 ∨ i32toU32 ticks > s.maxSysTicks)
    (h1 : 1 ≤ s.maxSysTicks) (h2 : s.maxSysTicks < 16777216) :
    timer_idle_enter ticks s = timer_idle_enter (-1) s ∧
    (timer_idle_enter ticks s).idleOrigTicks = s.maxSysTicks - 1 ∧
    (timer_idle_enter ticks s).idleOrigCount =
      u32 (u32sub s.stcvr s.timerIdleSkew + u32sub s.maxLoadValue s.defaultLoadVal) := by
  obtain ⟨r, c, csr, acc, d, ioc, M, iot, mlv, skew, tm, im, e, te⟩ := s
  simp only at hclamp h1 h2 ⊢
  unfold timer_idle_enter sysTickStop sysTickCurrentGet sysTickReloadSet sysTickStart
  simp only []
  rw [if_pos (show True ∨ i32toU32 (-1) > M from Or.inl trivial), if_pos hclamp]
  refine ⟨rfl, ?_, rfl⟩
  show u32sub M 1 = M - 1
  exact u32sub_eq h1 (by unfold U32M; omega)

/-- Witness for C5 at the claim's own boundary input maxSysTicks + 5 =
16799 in a concrete state with maxSysTicks = 16794. -/
theorem c5_clamp_boundary_witness :
    timer_idle_enter 16799 testState = timer_idle_enter (-1) testState ∧
    (timer_idle_enter 16799 testState).idleOrigTicks = testState.maxSysTicks - 1 ∧
    (timer_idle_enter 16799 testState).idleOrigCount =
      u32 (u32sub testState.stcvr testState.timerIdleSkew +
           u32sub testState.maxLoadValue testState.defaultLoadVal) :=
  c5_clamp_boundary testState 16799 (Or.inr (by decide)) (by decide) (by decide)

/-- Claim C6 counterexample: a ticks argument of 0 is not clamped into the
range [0, maxSysTicks - 1]: it falls into the non-clamping branch and the
uint32_t store of ticks - 1 wraps to 2^32 - 1, far above maxSysTicks - 1. -/
theorem c6_counterexample :
    (timer_idle_enter 0 testState).idleOrigTicks = 4294967295 ∧
    ¬ (timer_idle_enter 0 testState).idleOrigTicks ≤ testState.maxSysTicks - 1 := by
  constructor
  · decide
  · decide

/-- Claim C6 amended: the idle-enter routine is total (no error result), and
for every nonzero int32 ticks argument the stored request idleOrigTicks ends
up in the range [0, maxSysTicks - 1]; the argument 0 instead wraps to
2^32 - 1. -/
theorem c6_enter_sanitization (ticks : Int) (s : State) (h0 : ticks ≠ 0)
    (h1 : -2147483648 ≤ ticks) (h2 : ticks < 2147483648)
    (h3 : 1 ≤ s.maxSysTicks) (h4 : s.maxSysTicks < 16777216) :
    (timer_idle_enter ticks s).idleOrigTicks ≤ s.maxSysTicks - 1 := by
  obtain ⟨rv, cv, csr, acc, d0, ioc, M0, iot, mlv, sk, tm, im, ela, te⟩ := s
  simp only at h3 h4 ⊢
  unfold timer_idle_enter sysTickStop sysTickCurrentGet sysTickReloadSet sysTickStart
  simp only []
  by_cases hc : ticks = -1 ∨ i32toU32 ticks > M0
  · rw [if_pos hc]
    show u32sub M0 1 ≤ M0 - 1
    rw [u32sub_eq h3 (by unfold U32M; omega)]
  · rw [if_neg hc]
    show i32toU32 (ticks - 1) ≤ M0 - 1
    push_neg at hc
    obtain ⟨hne, hle⟩ := hc
    unfold i32toU32 U32M at *
    omega

/-- Witness for the amended C6 at ticks = 5. -/
theorem c6_enter_sanitization_witness :
    (timer_idle_enter 5 testState).idleOrigTicks ≤ testState.maxSysTicks - 1 :=
  c6_enter_sanitization 5 testState (by decide) (by decide) (by decide) (by decide) (by decide)

/-- Claim C4: on a timer interrupt, when idleMode is tickless the handler
reports idleOrigTicks + 1 elapsed ticks, clears idleMode and announces
exactly one tick event; otherwise it increments the elapsed tick count by
one and announces a tick event exactly when that count goes from 0 to 1. -/
theorem c4_handler_announce (s : State) (h1 : s.idleOrigTicks < 16777216)
    (h2 : 0 ≤ s.sysIdleElapsedTicks) (h3 : s.sysIdleElapsedTicks < 2147483647) :
    (s.idleMode = IdleMode.tickless →
      (timer_int_handler s).sysIdleElapsedTicks = (s.idleOrigTicks : Int) + 1 ∧
      (timer_int_handler s).idleMode = IdleMode.notTickless ∧
      (timer_int_handler s).tickEvents = s.tickEvents + 1) ∧
    (s.idleMode = IdleMode.notTickless →
      (timer_int_handler s).sysIdleElapsedTicks = s.sysIdleElapsedTicks + 1 ∧
      (timer_int_handler s).tickEvents =
        (if s.sysIdleElapsedTicks = 0 then s.tickEvents + 1 else s.tickEvents)) := by
  obtain ⟨rv, cv, csr, acc, d0, ioc, M0, iot, mlv, sk, tm, im, ela, te⟩ := s
  simp only at h1 h2 h3 ⊢
  have hrep : toI32 (u32 (iot + 1)) = (iot : Int) + 1 := by
    rw [u32_eq (by unfold U32M; omega), toI32_eq (by omega)]
    push_cast
    ring
  have hinc : i32wrap (ela + 1) = ela + 1 := i32wrap_eq (by omega) (by omega)
  constructor
  · intro him
    subst him
    cases tm <;>
      simp [timer_int_handler, sysTickStop, sysTickStart, sysTickReloadSet, hrep]
  · intro him
    subst him
    by_cases he : ela = 0
    · subst he
      have h11 : i32wrap 1 = 1 := by unfold i32wrap U32M; decide
      cases tm <;>
        simp [timer_int_handler, sysTickStop, sysTickStart, sysTickReloadSet, h11]
    · have hne1 : ¬ (i32wrap (ela + 1) = 1) := by rw [hinc]; omega
      cases tm <;>
        simp [timer_int_handler, sysTickStop, sysTickStart, sysTickReloadSet, hinc, hne1, he]

/-- Witness for C4 at concrete tickless and non-tickless states. -/
theorem c4_handler_announce_witness :
    (testState.idleMode = IdleMode.tickless →
      (timer_int_handler testState).sysIdleElapsedTicks = (testState.idleOrigTicks : Int) + 1 ∧
      (timer_int_handler testState).idleMode = IdleMode.notTickless ∧
      (timer_int_handler testState).tickEvents = testState.tickEvents + 1) ∧
    (testState.idleMode = IdleMode.notTickless →
      (timer_int_handler testState).sysIdleElapsedTicks = testState.sysIdleElapsedTicks + 1 ∧
      (timer_int_handler testState).tickEvents =
        (if testState.sysIdleElapsedTicks = 0 then testState.tickEvents + 1 else testState.tickEvents)) :=
  c4_handler_announce testState (by decide) (by decide) (by decide)

/-- Claim C1: entering tickless idle for n ticks (1 <= n <= maxSysTicks - 1)
and then taking the natural expiry interrupt (counter wrapped to the reload
value with the countflag set) makes the interrupt handler report exactly n
elapsed ticks, announce one tick event, and restore periodic mode with the
reload register back at the default reload value. -/
theorem c1_roundtrip (s : State) (n : Nat) (hn1 : 1 ≤ n) (hn2 : n ≤ s.maxSysTicks - 1)
    (hM1 : 1 ≤ s.maxSysTicks) (hM2 : s.maxSysTicks ≤ 16777216)
    (hd : s.defaultLoadVal < 16777216) :
    (timer_int_handler (hwWrap (timer_idle_enter (n : Int) s))).sysIdleElapsedTicks = (n : Int) ∧
    (timer_int_handler (hwWrap (timer_idle_enter (n : Int) s))).timerMode = TimerMode.periodic ∧
    (timer_int_handler (hwWrap (timer_idle_enter (n : Int) s))).strvr = s.defaultLoadVal ∧
    (timer_int_handler (hwWrap (timer_idle_enter (n : Int) s))).tickEvents = s.tickEvents + 1 := by
  obtain ⟨rv, cv, csr, acc, d0, ioc, M0, iot, mlv, sk, tm, im, ela, te⟩ := s
  simp only at hn2 hM1 hM2 hd ⊢
  have hnU : i32toU32 (n : Int) = n := i32toU32_ofNat (by unfold U32M; omega)
  have hcond : ¬ (M0 < n) := by omega
  have hio : i32toU32 ((n : Int) - 1) = n - 1 :=
    i32toU32_sub_one hn1 (by unfold U32M; omega)
  have hrep : toI32 (u32 (n - 1 + 1)) = (n : Int) := by
    have hn : n - 1 + 1 = n := by omega
    rw [hn, u32_eq (by unfold U32M; omega), toI32_eq (by omega)]
  have hdu : u32 d0 = d0 := u32_eq (by unfold U32M; omega)
  simp [timer_idle_enter, hwWrap, timer_int_handler, sysTickStop, sysTickStart,
        sysTickCurrentGet, sysTickReloadSet, hnU, hcond, hio, hrep, hdu]

/-- Witness for C1 at n = 5 in a concrete state. -/
theorem c1_roundtrip_witness :
    (timer_int_handler (hwWrap (timer_idle_enter (5 : Int) testState))).sysIdleElapsedTicks = 5 ∧
    (timer_int_handler (hwWrap (timer_idle_enter (5 : Int) testState))).timerMode = TimerMode.periodic ∧
    (timer_int_handler (hwWrap (timer_idle_enter (5 : Int) testState))).strvr = testState.defaultLoadVal ∧
    (timer_int_handler (hwWrap (timer_idle_enter (5 : Int) testState))).tickEvents = testState.tickEvents + 1 := by
  have h := c1_roundtrip testState 5 (by decide) (by decide) (by decide) (by decide) (by decide)
  exact_mod_cast h

/-- Claim C2: after entering idle for 10 ticks, if the counter is
interrupted when 3 default-reload periods plus a nonzero remainder have
elapsed, timer_idle_exit reports exactly 3 elapsed ticks with one tick
event, stays in one-shot mode, and reprograms the reload register to the
remainder. -/
theorem c2_early_interrupt (s : State) (r : Nat)
    (hd1 : 0 < s.defaultLoadVal) (hd2 : s.defaultLoadVal < 16777216)
    (hM : 10 ≤ s.maxSysTicks)
    (hsk : s.timerIdleSkew ≤ s.stcvr) (hcv : s.stcvr < 16777216)
    (hr1 : 0 < r) (hr2 : r < s.defaultLoadVal) :
    (timer_idle_exit (setCount (s.stcvr - s.timerIdleSkew + 6 * s.defaultLoadVal - r)
        (timer_idle_enter 10 s))).sysIdleElapsedTicks = 3 ∧
    (timer_idle_exit (setCount (s.stcvr - s.timerIdleSkew + 6 * s.defaultLoadVal - r)
        (timer_idle_enter 10 s))).timerMode = TimerMode.oneShot ∧
    (timer_idle_exit (setCount (s.stcvr - s.timerIdleSkew + 6 * s.defaultLoadVal - r)
        (timer_idle_enter 10 s))).strvr = r ∧
    (timer_idle_exit (setCount (s.stcvr - s.timerIdleSkew + 6 * s.defaultLoadVal - r)
        (timer_idle_enter 10 s))).tickEvents = s.tickEvents + 1 := by
  obtain ⟨rv, cv, csr, acc, d0, ioc, M0, iot, mlv, sk, tm, im, ela, te⟩ := s
  simp only at hd1 hd2 hM hsk hcv hr2 ⊢
  have h10 : i32toU32 10 = 10 := by unfold i32toU32 U32M; decide
  have hcond : ¬ (M0 < (10 : Nat)) := by omega
  have h91 : i32toU32 ((10 : Int) - 1) = 9 := by unfold i32toU32 U32M; decide
  have h92 : i32toU32 (9 : Int) = 9 := by unfold i32toU32 U32M; decide
  have hsub : u32sub cv sk = cv - sk := u32sub_eq hsk (by unfold U32M; omega)
  have h9d : u32 (9 * d0) = 9 * d0 := u32_eq (by unfold U32M; omega)
  have hioc : u32 (cv - sk + 9 * d0) = cv - sk + 9 * d0 := u32_eq (by unfold U32M; omega)
  have hc0 : ¬ (cv - sk + 6 * d0 - r = 0) := by omega
  have helap : u32sub (cv - sk + 9 * d0) (cv - sk + 6 * d0 - r) = 3 * d0 + r := by
    rw [u32sub_eq (by omega) (by unfold U32M; omega)]
    omega
  have hrem : (3 * d0 + r) % d0 = r := by
    rw [Nat.add_comm, Nat.mul_comm, Nat.add_mul_mod_self_left, Nat.mod_eq_of_lt hr2]
  have hrne : r ≠ 0 := by omega
  have hcr : r < cv - sk + 6 * d0 - r := by omega
  have hq : (3 * d0 + r) / d0 = 3 := by
    rw [Nat.add_comm, Nat.mul_comm, Nat.add_mul_div_left _ _ hd1, Nat.div_eq_of_lt hr2]
  have h3i : toI32 3 = 3 := by unfold toI32 U32M; decide
  have hru : u32 r = r := u32_eq (by unfold U32M; omega)
  simp [timer_idle_enter, timer_idle_exit, setCount, sysTickStop, sysTickStart,
        sysTickCurrentGet, sysTickReloadSet, h10, hcond, h91, h92, hsub, h9d, hioc,
        hc0, helap, hrem, hrne, hcr, hq, h3i, hru]

/-- Witness for C2 at a concrete state with remainder 7. -/
theorem c2_early_interrupt_witness :
    (timer_idle_exit (setCount (testState.stcvr - testState.timerIdleSkew +
        6 * testState.defaultLoadVal - 7) (timer_idle_enter 10 testState))).sysIdleElapsedTicks = 3 ∧
    (timer_idle_exit (setCount (testState.stcvr - testState.timerIdleSkew +
        6 * testState.defaultLoadVal - 7) (timer_idle_enter 10 testState))).timerMode = TimerMode.oneShot ∧
    (timer_idle_exit (setCount (testState.stcvr - testState.timerIdleSkew +
        6 * testState.defaultLoadVal - 7) (timer_idle_enter 10 testState))).strvr = 7 ∧
    (timer_idle_exit (setCount (testState.stcvr - testState.timerIdleSkew +
        6 * testState.defaultLoadVal - 7) (timer_idle_enter 10 testState))).tickEvents = testState.tickEvents + 1 :=
  c2_early_interrupt testState 7 (by decide) (by decide) (by decide) (by decide)
    (by decide) (by decide) (by decide)

lemma u32_add_left (a b : Nat) : u32 (u32 a + b) = u32 (a + b) := by
  unfold u32 U32M
  omega

lemma u32sub_self (a : Nat) : u32sub a a = 0 := by
  unfold u32sub U32M
  omega

lemma u32_idem (a : Nat) : u32 (u32 a) = u32 a := by
  unfold u32 U32M
  omega

lemma naturalTicks_fields (cpt : Nat) (s : State) (h0 : s.accumulatedCount = 0)
    (h1 : s.stcvr = s.strvr) :
    ∀ k, (naturalTicks cpt k s).strvr = s.strvr ∧
         (naturalTicks cpt k s).stcvr = s.strvr ∧
         (naturalTicks cpt k s).accumulatedCount = u32 (k * cpt) ∧
         (naturalTicks cpt k s).tickEvents = s.tickEvents + k := by
  intro k
  induction k with
  | zero =>
    refine ⟨rfl, h1, ?_, rfl⟩
    rw [naturalTicks, h0, Nat.zero_mul]
    simp [u32]
  | succ k ih =>
    obtain ⟨ha, hb, hc, hd⟩ := ih
    refine ⟨ha, ?_, ?_, ?_⟩
    · show (naturalTicks cpt k s).strvr = s.strvr
      exact ha
    · show u32 ((naturalTicks cpt k s).accumulatedCount + cpt) = u32 ((k + 1) * cpt)
      rw [hc, u32_add_left]
      congr 1
      ring
    · show (naturalTicks cpt k s).tickEvents + 1 = s.tickEvents + (k + 1)
      omega

/-- Claim C3 counterexample: timer_read is not non-decreasing across an idle
enter/exit cycle: from a state one cycle before a tick boundary, entering
idle for 10 ticks and exiting after 3 periods plus 5 cycles drops the value
returned by timer_read from 998 to 5. -/
theorem c3_counterexample :
    timer_read (timer_idle_exit (setCount 5990 (timer_idle_enter 10 c3State))) <
      timer_read c3State := by
  decide

/-- Claim C3 amended: across natural periodic tick interrupts with no idle
involvement, timer_read is non-decreasing (below accumulator wraparound) and
after k interrupts equals exactly k times the cycles per tick modulo 2^32,
with exactly k tick events announced; in particular 5 interrupts at 1000
cycles per tick yield a reading of 5000 and 5 announcements.  An idle
enter/exit cycle, by contrast, can decrease the lazily computed reading. -/
theorem c3_accumulator (cpt : Nat) (s : State) (h0 : s.accumulatedCount = 0)
    (h1 : s.stcvr = s.strvr) :
    (∀ k, (naturalTicks cpt k s).tickEvents = s.tickEvents + k ∧
          timer_read (naturalTicks cpt k s) = u32 (k * cpt)) ∧
    (∀ j k, j ≤ k → k * cpt < U32M →
        timer_read (naturalTicks cpt j s) ≤ timer_read (naturalTicks cpt k s)) ∧
    (cpt = 1000 → timer_read (naturalTicks cpt 5 s) = 5000 ∧
        (naturalTicks cpt 5 s).tickEvents = s.tickEvents + 5) := by
  have key := naturalTicks_fields cpt s h0 h1
  have hread : ∀ k, timer_read (naturalTicks cpt k s) = u32 (k * cpt) := by
    intro k
    obtain ⟨ha, hb, hc, _⟩ := key k
    unfold timer_read
    rw [ha, hb, hc, u32sub_self, Nat.add_zero, u32_idem]
  refine ⟨fun k => ⟨(key k).2.2.2, hread k⟩, ?_, ?_⟩
  · intro j k hjk hk
    have hj : j * cpt ≤ k * cpt := Nat.mul_le_mul_right cpt hjk
    rw [hread j, hread k, u32_eq (by omega), u32_eq hk]
    exact hj
  · intro hcpt
    subst hcpt
    refine ⟨?_, (key 5).2.2.2⟩
    rw [hread 5]
    decide

/-- Witness for the amended C3 at cyclesPerTick = 1000 on a freshly
configured state. -/
theorem c3_accumulator_witness :
    (∀ k, (naturalTicks 1000 k c3RunState).tickEvents = c3RunState.tickEvents + k ∧
          timer_read (naturalTicks 1000 k c3RunState) = u32 (k * 1000)) ∧
    (∀ j k, j ≤ k → k * 1000 < U32M →
        timer_read (naturalTicks 1000 j c3RunState) ≤ timer_read (naturalTicks 1000 k c3RunState)) ∧
    ((1000 : Nat) = 1000 → timer_read (naturalTicks 1000 5 c3RunState) = 5000 ∧
        (naturalTicks 1000 5 c3RunState).tickEvents = c3RunState.tickEvents + 5) :=
  c3_accumulator 1000 c3RunState (by decide) (by decide)

end Systick
